import Mathlib

/-!
Verification development for the ARM Debug high-level-analyzer core
(`debug.py`): the TPIU deframer, the ITM/DWT packet parser, the
application-record reassembler and the console grouper, shallowly embedded
in Lean.  Times are modelled as `Option Nat` (Python `None` vs. a concrete
GraphTime), bytes and accumulated payloads as `Nat` with explicit masking.
-/

set_option maxRecDepth 4000

/-- Python `'{0:0wX}'.format(n)`: uppercase hex, zero-padded to at least
`w` digits (more digits are kept when the value needs them). -/
def pyHexUpper (w n : Nat) : String :=
  let ds := (Nat.toDigits 16 n).map Char.toUpper
  String.mk (List.replicate (w - ds.length) '0' ++ ds)

/-- Python `chr(cc).isprintable()` restricted to `cc < 256` (every call
site masks the byte with `& 0xFF` first): printable means not a control
character, not in `0x7F..0xA0`, and not the soft hyphen `0xAD`. -/
def pyIsPrintable (cc : Nat) : Bool :=
  (0x20 ≤ cc && cc ≤ 0x7E) || (0xA1 ≤ cc && cc ≤ 0xFF && cc ≠ 0xAD)

/-- An analyzer frame (both the upstream input events and the emitted
output frames).  `val` models the `'val'` key of `frame.data`, `dataBytes`
the `'data'` key; a key that is absent is `none`.  `dataError` models the
presence of the optional `'error'` key on input events. -/
structure Frame where
  tag : String
  start_time : Option Nat
  end_time : Option Nat
  val : Option String := none
  dataBytes : Option (List Nat) := none
  dataError : Bool := false
deriving DecidableEq, Repr

/-- `AnalyzerFrame(tag, start, end, {'val': v})`. -/
def AnalyzerFrame (tag : String) (st en : Option Nat) (v : String) : Frame :=
  { tag := tag, start_time := st, end_time := en, val := some v }

/-- `TPIU_FSM` state enumeration of the ITM/DWT byte parser. -/
inductive TPIU_FSM where
  | HDR | ITM1 | ITM2 | ITM3 | ITM4
  | DWT1 | DWT2 | DWT3 | DWT4
  | EXT | LTS | GTS1 | GTS2
deriving DecidableEq, Repr

/-- `DecodeStyle` choices of the ITM/DWT analyzer. -/
inductive DecodeStyle where
  | All | Port | Console | Instrumentation
deriving DecidableEq, Repr

/-- `DecodeStyleTPIU` choices of the TPIU deframer. -/
inductive DecodeStyleTPIU where
  | All | Stream | Saleae
deriving DecidableEq, Repr

def ITMDWTPP_SYNC : Nat := 0x00

def ITMDWTPP_OVERFLOW : Nat := 0x70

def ITMDWTPP_TYPE_PROTOCOL : Nat := 0x0

def ITMDWTPP_TYPE_SOURCE1 : Nat := 0x1

def ITMDWTPP_TYPE_SOURCE2 : Nat := 0x2

def ITMDWTPP_TYPE_SOURCE4 : Nat := 0x3

def DWT_ID_EVENT_COUNTER_WRAP : Nat := 0

def DWT_ID_EXCEPTION : Nat := 1

def DWT_ID_PC_SAMPLE : Nat := 2

/-- Python `use_start = a; if use_start == None: use_start = b`. -/
def useStart (a b : Option Nat) : Option Nat :=
  match a with
  | none => b
  | some t => some t

/-- State of the eCosPro instrumentation record reassembler
(`Instrumentation.__init__`): `sequence = 256` is the idle sentinel. -/
structure Instrumentation where
  start_time : Option Nat
  end_time : Option Nat
  sequence : Nat
  lastseq : Nat
  rec_words : Nat
  num_words : Nat
  dvector : List Nat
deriving DecidableEq, Repr

/-- `Instrumentation.__init__`. -/
def Instrumentation.init : Instrumentation :=
  { start_time := none, end_time := some 0, sequence := 256, lastseq := 0,
    rec_words := 0, num_words := 0, dvector := [] }

/-- `Instrumentation.packet`: one reassembled ITM write of the given size.
The field loop indexes `dvector[idx]` for `idx < num_words`; it is embedded
with `getD _ 0` (every reachable state keeps `num_words = dvector.length`,
where Python would raise `IndexError` otherwise). -/
def Instrumentation.packet (s : Instrumentation) (start_time end_time : Option Nat)
    (size pdata : Nat) : Instrumentation × Option Frame :=
  if size = 1 then
    let snum := pdata % 256
    let nf : Option Frame :=
      if s.sequence ≠ snum then
        some (AnalyzerFrame "err" (useStart s.start_time start_time) end_time
          ("Seq# mismatch: saw " ++ pyHexUpper 2 snum ++ " expected " ++ pyHexUpper 2 s.sequence))
      else
        let data_str :=
          (if snum ≠ (s.lastseq + 1) % 256 then "[Missed packets] " else "")
          ++ ("Seq#" ++ pyHexUpper 2 s.sequence)
          ++ (if s.rec_words ≠ s.num_words then
                "[Fields saw " ++ toString s.num_words ++ " expected " ++ toString s.rec_words ++ "] "
              else "")
          ++ String.join ((List.range s.num_words).map fun idx =>
               " " ++ pyHexUpper 8 (s.dvector.getD idx 0))
        some (AnalyzerFrame "console" s.start_time end_time data_str)
    ({ s with lastseq := snum, sequence := 256 }, nf)
  else if size = 2 then
    let nf : Option Frame :=
      if s.sequence ≠ 256 then
        some (AnalyzerFrame "err" (useStart s.start_time start_time) s.end_time
          ("Partial record for seq# " ++ pyHexUpper 2 s.sequence))
      else none
    ({ s with
        num_words := 0, sequence := pdata % 256, rec_words := (pdata >>> 8) % 256,
        start_time := start_time, end_time := end_time, dvector := [] }, nf)
  else if size = 4 then
    ({ s with
        dvector := s.dvector ++ [pdata], num_words := s.num_words + 1,
        end_time := end_time }, none)
  else
    ({ s with sequence := 256 },
     some (AnalyzerFrame "err" (useStart s.start_time start_time) end_time
       ("Unexpected field size " ++ toString size)))

/-- One driver step: feed one `(start, end, size, pdata)` packet to the
reassembler and collect the emitted frame, if any. -/
def instStep (acc : Instrumentation × List Frame)
    (p : Option Nat × Option Nat × Nat × Nat) : Instrumentation × List Frame :=
  let r := acc.1.packet p.1 p.2.1 p.2.2.1 p.2.2.2
  (r.1, match r.2 with | none => acc.2 | some f => acc.2 ++ [f])

/-- Feed a list of packets to the reassembler, collecting emitted frames. -/
def Instrumentation.feed (inst : Instrumentation)
    (pkts : List (Option Nat × Option Nat × Nat × Nat)) : Instrumentation × List Frame :=
  pkts.foldl instStep (inst, [])

/-- State of the console grouper (`ConsoleCtx.__init__`). -/
structure ConsoleCtx where
  start_time : Option Nat
  ctext : String
deriving DecidableEq, Repr

/-- `ConsoleCtx.cdata`: accumulate one payload byte, emitting a `console`
frame on LF or NUL. -/
def ConsoleCtx.cdata (s : ConsoleCtx) (frame : Frame) (cc : Nat) :
    ConsoleCtx × Option Frame :=
  if cc = 0x0A ∨ cc = 0x00 then
    ({ s with ctext := "" },
     some (AnalyzerFrame "console" s.start_time frame.end_time s.ctext))
  else
    let s := if s.ctext = "" then { s with start_time := frame.start_time } else s
    if pyIsPrintable cc then ({ s with ctext := s.ctext.push (Char.ofNat cc) }, none)
    else (s, none)

/-- Output arity of one parser step: Python returns `None`, a single
`AnalyzerFrame`, or a list of frames. -/
inductive POut where
  | noneF : POut
  | oneF : Frame → POut
  | listF : List Frame → POut
deriving DecidableEq, Repr

/-- Normalise a step output to the list of frames it carries. -/
def POut.frames : POut → List Frame
  | POut.noneF => []
  | POut.oneF f => [f]
  | POut.listF l => l

/-- State of the ITM/DWT packet parser (`PktCtx.__init__`). -/
structure PktCtx where
  start_time : Option Nat
  end_time : Option Nat
  portaddr : Nat
  fsm : TPIU_FSM
  ipage : Nat
  size : Nat
  pcode : Nat
  pdata : Nat
  dstyle : DecodeStyle
  instrumentation : Option Instrumentation
  conctx : Option ConsoleCtx
deriving DecidableEq, Repr

/-- `PktCtx.__init__`. -/
def PktCtx.init (start_time : Option Nat) (dstyle : DecodeStyle) (portaddr : Nat) : PktCtx :=
  { start_time := start_time, end_time := some 0, portaddr := portaddr,
    fsm := TPIU_FSM.HDR, ipage := 0, size := 0, pcode := 0, pdata := 0,
    dstyle := dstyle, instrumentation := none, conctx := none }

/-- The raw-emission tail of `PktCtx.itm_process_data` (the `do_raw` path
reached in `All` mode, or in `Port` mode with a matching port). -/
def PktCtx.itm_raw (s : PktCtx) (frame : Frame) (paddr : Nat) : PktCtx × POut :=
  let s := { s with end_time := frame.end_time }
  let data_str := "Port#" ++ toString paddr ++ " Size#" ++ toString s.size ++ " " ++
    (if s.size = 1 then "Data#" ++ pyHexUpper 2 (s.pdata % 256)
     else if s.size = 2 then "Data#" ++ pyHexUpper 4 (s.pdata % 65536)
     else "Data#" ++ pyHexUpper 8 (s.pdata % 4294967296))
  (s, POut.oneF (AnalyzerFrame "itm" s.start_time s.end_time data_str))

/-- `PktCtx.itm_process_data`: dispatch one completed ITM source packet
according to the configured decode style. -/
def PktCtx.itm_process_data (s : PktCtx) (frame : Frame) : PktCtx × POut :=
  let paddr := s.ipage * 32 + s.pcode
  if s.dstyle = DecodeStyle.Port then
    if paddr ≠ s.portaddr then (s, POut.noneF) else s.itm_raw frame paddr
  else if s.dstyle = DecodeStyle.Console then
    if paddr ≠ s.portaddr then (s, POut.noneF)
    else
      let cctx := match s.conctx with
        | none => ConsoleCtx.mk frame.start_time ""
        | some c => c
      let r := (List.range s.size).foldl
        (fun acc idx =>
          let r1 := acc.1.cdata frame ((s.pdata >>> (idx * 8)) % 256)
          match r1.2 with
          | none => (r1.1, acc.2)
          | some f => (r1.1, acc.2 ++ [f]))
        (cctx, ([] : List Frame))
      ({ s with conctx := some r.1 }, POut.listF r.2)
  else if s.dstyle = DecodeStyle.Instrumentation then
    if paddr ≠ s.portaddr then (s, POut.noneF)
    else
      let inst := match s.instrumentation with
        | none => Instrumentation.init
        | some i => i
      let r := inst.packet s.start_time frame.end_time s.size s.pdata
      ({ s with instrumentation := some r.1 },
       match r.2 with
       | none => POut.noneF
       | some f => POut.oneF f)
  else
    s.itm_raw frame paddr

/-- `PktCtx.dwt_process_data`: render one completed DWT hardware packet. -/
def PktCtx.dwt_process_data (s : PktCtx) (frame : Frame) : PktCtx × Option Frame :=
  let s := { s with end_time := frame.end_time }
  if s.dstyle = DecodeStyle.Console then (s, none)
  else
    let data_str :=
      if s.pcode = DWT_ID_PC_SAMPLE then
        if s.size = 1 then
          if s.pdata = 0 then " IDLE:SLEEP"
          else " IDLE:" ++ pyHexUpper 2 (s.pdata % 256)
        else if s.size = 4 then " PC:" ++ pyHexUpper 8 s.pdata
        else " PC:Unrecognised"
      else if s.pcode = DWT_ID_EXCEPTION then
        let exception_number := s.pdata % 512
        let fn := (s.pdata >>> 12) % 4
        let fn_reason :=
          if fn = 1 then "ENTERED"
          else if fn = 2 then "EXITED"
          else if fn = 3 then "RESUMED"
          else "RESERVED"
        " EXC " ++ toString exception_number ++ " " ++ fn_reason
      else if s.pcode = DWT_ID_EVENT_COUNTER_WRAP then
        " WRAP " ++ pyHexUpper 2 (s.pdata % 256)
      else if s.pcode < 8 then " RESERVED"
      else " DATA-TRACE:IGNORED"
    (s, some (AnalyzerFrame "dwt" s.start_time s.end_time data_str))

/-- `PktCtx.ext_process_data`. -/
def PktCtx.ext_process_data (s : PktCtx) (frame : Frame) : PktCtx × Frame :=
  let s := { s with end_time := frame.end_time }
  (s, AnalyzerFrame "ext" s.start_time s.end_time (" " ++ pyHexUpper 8 s.pdata))

/-- `PktCtx.local_timestamp`. -/
def PktCtx.local_timestamp (s : PktCtx) (frame : Frame) : PktCtx × Frame :=
  let s := { s with end_time := frame.end_time }
  let data_str := "Local TS " ++ toString s.pdata ++
    (if s.pcode = 0 then " synchronous"
     else if s.pcode = 1 then " delayed"
     else if s.pcode = 2 then " delayed-generated"
     else if s.pcode = 3 then " delayed-relative"
     else " UNKNOWN")
  (s, AnalyzerFrame "console" s.start_time s.end_time data_str)

/-- `PktCtx.global_timestamp1`. -/
def PktCtx.global_timestamp1 (s : PktCtx) (frame : Frame) : PktCtx × Frame :=
  let s := { s with end_time := frame.end_time }
  let data_str := "Global TS " ++ toString s.pdata ++
    (if Nat.testBit s.pcode 5 then " ClkChk" else "") ++
    (if Nat.testBit s.pcode 6 then " Wrap" else "")
  (s, AnalyzerFrame "console" s.start_time s.end_time data_str)

/-- `PktCtx.global_timestamp2`. -/
def PktCtx.global_timestamp2 (s : PktCtx) (frame : Frame) : PktCtx × Frame :=
  let s := { s with end_time := frame.end_time }
  (s, AnalyzerFrame "console" s.start_time s.end_time
    ("Global TS Hi-order " ++ toString s.pdata))

/-- `PktCtx.hdr`: decode a header byte.  Following the source, `self.size`
is assigned at the end of every non-SYNC/OVERFLOW path (0 for protocol
packets, the SS-decoded width for source packets), and `self.start_time`
is latched only for source packets. -/
def PktCtx.hdr (s : PktCtx) (frame : Frame) (db : Nat) : PktCtx × POut :=
  if db = ITMDWTPP_SYNC then
    ({ s with start_time := none, ipage := 0 }, POut.noneF)
  else if db = ITMDWTPP_OVERFLOW then
    ({ s with start_time := none }, POut.noneF)
  else
    let source := db % 4
    if source = ITMDWTPP_TYPE_PROTOCOL then
      if Nat.testBit db 3 then
        if Nat.testBit db 7 then
          ({ s with fsm := TPIU_FSM.EXT, pdata := (db >>> 4) % 8, size := 0 }, POut.noneF)
        else if Nat.testBit db 2 then
          ({ s with pdata := 0, size := 0 }, POut.noneF)
        else
          ({ s with ipage := (db >>> 4) % 8, size := 0 }, POut.noneF)
      else
        if Nat.testBit db 2 then
          if db = 0x94 then
            ({ s with pdata := 0, pcode := 0, fsm := TPIU_FSM.GTS1, size := 0 }, POut.noneF)
          else if db = 0xB4 then
            ({ s with pdata := 0, pcode := 0, fsm := TPIU_FSM.GTS2, size := 0 }, POut.noneF)
          else
            ({ s with pdata := 0, pcode := 0, size := 0 },
             POut.oneF (AnalyzerFrame "err" (useStart s.start_time frame.start_time)
               frame.end_time ("Global TimeStamp Decode " ++ pyHexUpper 2 db)))
        else
          if Nat.testBit db 7 then
            ({ s with fsm := TPIU_FSM.LTS, pcode := (db >>> 4) % 8, pdata := 0, size := 0 },
             POut.noneF)
          else
            let r := PktCtx.local_timestamp
              { s with pcode := 0, pdata := (db >>> 4) % 8 } frame
            ({ r.1 with size := 0 }, POut.oneF r.2)
    else
      let size :=
        if source = ITMDWTPP_TYPE_SOURCE1 then 1
        else if source = ITMDWTPP_TYPE_SOURCE2 then 2
        else 4
      if Nat.testBit db 2 then
        ({ s with
            fsm := TPIU_FSM.DWT1, pcode := (db >>> 3) % 32, pdata := 0,
            start_time := frame.start_time, size := size }, POut.noneF)
      else
        ({ s with
            fsm := TPIU_FSM.ITM1, pcode := (db >>> 3) % 32, pdata := 0,
            start_time := frame.start_time, size := size }, POut.noneF)

/-- `PktCtx.itm1`. -/
def PktCtx.itm1 (s : PktCtx) (frame : Frame) (db : Nat) : PktCtx × POut :=
  let s := { s with pdata := db }
  if s.size = 1 then
    let r := s.itm_process_data frame
    ({ r.1 with fsm := TPIU_FSM.HDR }, r.2)
  else
    ({ s with fsm := TPIU_FSM.ITM2 }, POut.noneF)

/-- `PktCtx.itm2`. -/
def PktCtx.itm2 (s : PktCtx) (frame : Frame) (db : Nat) : PktCtx × POut :=
  let s := { s with pdata := s.pdata ||| (db <<< 8) }
  if s.size = 2 then
    let r := s.itm_process_data frame
    ({ r.1 with fsm := TPIU_FSM.HDR }, r.2)
  else
    ({ s with fsm := TPIU_FSM.ITM3 }, POut.noneF)

/-- `PktCtx.itm3`. -/
def PktCtx.itm3 (s : PktCtx) (frame : Frame) (db : Nat) : PktCtx × POut :=
  let s := { s with pdata := s.pdata ||| (db <<< 16) }
  if s.size = 3 then
    let r := s.itm_process_data frame
    ({ r.1 with fsm := TPIU_FSM.HDR }, r.2)
  else
    ({ s with fsm := TPIU_FSM.ITM4 }, POut.noneF)

/-- `PktCtx.itm4` (returns to HDR unconditionally). -/
def PktCtx.itm4 (s : PktCtx) (frame : Frame) (db : Nat) : PktCtx × POut :=
  let s := { s with pdata := s.pdata ||| (db <<< 24) }
  if s.size = 4 then
    let r := s.itm_process_data frame
    ({ r.1 with fsm := TPIU_FSM.HDR }, r.2)
  else
    ({ s with fsm := TPIU_FSM.HDR }, POut.noneF)

/-- `PktCtx.dwt1`. -/
def PktCtx.dwt1 (s : PktCtx) (frame : Frame) (db : Nat) : PktCtx × POut :=
  let s := { s with pdata := db }
  if s.size = 1 then
    let r := s.dwt_process_data frame
    ({ r.1 with fsm := TPIU_FSM.HDR },
     match r.2 with | none => POut.noneF | some f => POut.oneF f)
  else
    ({ s with fsm := TPIU_FSM.DWT2 }, POut.noneF)

/-- `PktCtx.dwt2`. -/
def PktCtx.dwt2 (s : PktCtx) (frame : Frame) (db : Nat) : PktCtx × POut :=
  let s := { s with pdata := s.pdata ||| (db <<< 8) }
  if s.size = 2 then
    let r := s.dwt_process_data frame
    ({ r.1 with fsm := TPIU_FSM.HDR },
     match r.2 with | none => POut.noneF | some f => POut.oneF f)
  else
    ({ s with fsm := TPIU_FSM.DWT3 }, POut.noneF)

/-- `PktCtx.dwt3`. -/
def PktCtx.dwt3 (s : PktCtx) (frame : Frame) (db : Nat) : PktCtx × POut :=
  let s := { s with pdata := s.pdata ||| (db <<< 16) }
  if s.size = 3 then
    let r := s.dwt_process_data frame
    ({ r.1 with fsm := TPIU_FSM.HDR },
     match r.2 with | none => POut.noneF | some f => POut.oneF f)
  else
    ({ s with fsm := TPIU_FSM.DWT4 }, POut.noneF)

/-- `PktCtx.dwt4` (returns to HDR unconditionally). -/
def PktCtx.dwt4 (s : PktCtx) (frame : Frame) (db : Nat) : PktCtx × POut :=
  let s := { s with pdata := s.pdata ||| (db <<< 24) }
  if s.size = 4 then
    let r := s.dwt_process_data frame
    ({ r.1 with fsm := TPIU_FSM.HDR },
     match r.2 with | none => POut.noneF | some f => POut.oneF f)
  else
    ({ s with fsm := TPIU_FSM.HDR }, POut.noneF)

/-- `PktCtx.ext`: accumulate 7 bits per extension byte. -/
def PktCtx.ext (s : PktCtx) (frame : Frame) (db : Nat) : PktCtx × POut :=
  let r : PktCtx × Bool :=
    if s.size = 0 then
      ({ s with pdata := s.pdata ||| ((db % 128) <<< 3) }, Nat.testBit db 7)
    else if s.size = 1 then
      ({ s with pdata := s.pdata ||| ((db % 128) <<< 10) }, Nat.testBit db 7)
    else if s.size = 2 then
      ({ s with pdata := s.pdata ||| ((db % 128) <<< 17) }, Nat.testBit db 7)
    else
      ({ s with pdata := s.pdata ||| (db <<< 24) }, false)
  if r.2 then
    ({ r.1 with size := r.1.size + 1 }, POut.noneF)
  else
    let r2 := r.1.ext_process_data frame
    ({ r2.1 with fsm := TPIU_FSM.HDR }, POut.oneF r2.2)

/-- `PktCtx.lts`: multi-byte local timestamp continuation. -/
def PktCtx.lts (s : PktCtx) (frame : Frame) (db : Nat) : PktCtx × POut :=
  let s := { s with pdata := s.pdata ||| ((db % 128) <<< (s.size * 7)) }
  if Nat.testBit db 7 then
    let s := { s with size := s.size + 1 }
    if s.size = 4 then
      ({ s with fsm := TPIU_FSM.HDR },
       POut.oneF (AnalyzerFrame "err" s.start_time frame.end_time
         "Local TimeStamp Continuation"))
    else (s, POut.noneF)
  else
    let r := s.local_timestamp frame
    ({ r.1 with fsm := TPIU_FSM.HDR }, POut.oneF r.2)

/-- `PktCtx.gts1`: global timestamp (low part) continuation. -/
def PktCtx.gts1 (s : PktCtx) (frame : Frame) (db : Nat) : PktCtx × POut :=
  let s :=
    if s.size ≠ 3 then { s with pdata := s.pdata ||| ((db % 128) <<< (s.size * 7)) }
    else
      { s with
          pdata := s.pdata ||| ((db % 32) <<< (s.size * 7)),
          pcode := ((db >>> 5) % 4) <<< 5 }
  if Nat.testBit db 7 then
    let s := { s with size := s.size + 1 }
    if s.size = 4 then
      ({ s with fsm := TPIU_FSM.HDR },
       POut.oneF (AnalyzerFrame "err" s.start_time frame.end_time
         "Global TimeStamp1 Continuation"))
    else (s, POut.noneF)
  else
    let r := s.global_timestamp1 frame
    ({ r.1 with fsm := TPIU_FSM.HDR }, POut.oneF r.2)

/-- `PktCtx.gts2`: global timestamp (high part) continuation. -/
def PktCtx.gts2 (s : PktCtx) (frame : Frame) (db : Nat) : PktCtx × POut :=
  let s := { s with pdata := s.pdata ||| ((db % 128) <<< (s.size * 7)) }
  if Nat.testBit db 7 then
    let s := { s with size := s.size + 1 }
    if s.size = 6 then
      ({ s with fsm := TPIU_FSM.HDR },
       POut.oneF (AnalyzerFrame "err" s.start_time frame.end_time
         "Global TimeStamp2 Continuation"))
    else (s, POut.noneF)
  else
    let r := s.global_timestamp2 frame
    ({ r.1 with fsm := TPIU_FSM.HDR }, POut.oneF r.2)

/-- The `switcher` dictionary of `PktCtx.run`: dispatch on the FSM state. -/
def PktCtx.dispatch (s : PktCtx) (frame : Frame) (db : Nat) : PktCtx × POut :=
  match s.fsm with
  | TPIU_FSM.HDR => s.hdr frame db
  | TPIU_FSM.ITM1 => s.itm1 frame db
  | TPIU_FSM.ITM2 => s.itm2 frame db
  | TPIU_FSM.ITM3 => s.itm3 frame db
  | TPIU_FSM.ITM4 => s.itm4 frame db
  | TPIU_FSM.DWT1 => s.dwt1 frame db
  | TPIU_FSM.DWT2 => s.dwt2 frame db
  | TPIU_FSM.DWT3 => s.dwt3 frame db
  | TPIU_FSM.DWT4 => s.dwt4 frame db
  | TPIU_FSM.EXT => s.ext frame db
  | TPIU_FSM.LTS => s.lts frame db
  | TPIU_FSM.GTS1 => s.gts1 frame db
  | TPIU_FSM.GTS2 => s.gts2 frame db

/-- `PktCtx.run`: feed one upstream frame; the access
`frame.data['data'][0]` raises when the frame carries no data byte, which
is modelled as `none`. -/
def PktCtx.run (s : PktCtx) (frame : Frame) : Option (PktCtx × POut) :=
  match frame.dataBytes with
  | some (db :: _) => some (s.dispatch frame db)
  | some [] => none
  | none => none

/-- Drive a parser over a list of events, collecting all emitted frames;
`none` if any step raises. -/
def PktCtx.runBytes (s : PktCtx) (evs : List Frame) : Option (PktCtx × List Frame) :=
  evs.foldl
    (fun acc ev =>
      match acc with
      | none => none
      | some p =>
        match p.1.run ev with
        | none => none
        | some r => some (r.1, p.2 ++ r.2.frames))
    (some (s, []))

/-- A one-byte upstream data event with the given timing. -/
def mkEvent (st en b : Nat) : Frame :=
  { tag := "data", start_time := some st, end_time := some en, dataBytes := some [b] }

/-- Events for a byte list, timed consecutively. -/
def evList (bs : List Nat) : List Frame :=
  (bs.zip (List.range bs.length)).map fun p => mkEvent p.2 (p.2 + 1) p.1

/-- A TPIU packet-buffer entry: `(byte, start_time, end_time)` as stored by
`TPIUCtx.process_byte` (dummy prefill entries carry `None` times). -/
abbrev PB := Nat × Option Nat × Option Nat

def PBdefault : PB := (0, none, none)

/-- Byte value at an index of a packet buffer. -/
def byteAt (l : List PB) (j : Nat) : Nat := (l.getD j PBdefault).1

/-- State of the TPIU deframer (`TPIUCtx.__init__`). -/
structure TPIUCtx where
  start_time : Option Nat
  dstyle : DecodeStyleTPIU
  stream_match : Nat
  stream_active : Nat
  bidx : Nat
  packet : List PB
deriving DecidableEq, Repr

/-- `TPIUCtx.__init__`: an `offset` prefills the buffer with dummy bytes. -/
def TPIUCtx.init (tpdstyle : DecodeStyleTPIU) (stream_match offset : Nat) : TPIUCtx :=
  { start_time := none, dstyle := tpdstyle, stream_match := stream_match,
    stream_active := 0, bidx := offset, packet := List.replicate offset PBdefault }

/-- `TPIUCtx.dump_stream`: report one run of payload bytes for a stream,
either as one aggregate `tpiu` frame or (Saleae passthrough) as one `data`
frame per byte with valid timing. -/
def TPIUCtx.dump_stream (s : TPIUCtx) (start_time end_time : Option Nat)
    (streamid : Nat) (databytes : List PB) : POut :=
  if s.dstyle = DecodeStyleTPIU.Stream ∧ streamid ≠ s.stream_match then POut.noneF
  else if databytes.length ≠ 0 then
    if s.dstyle = DecodeStyleTPIU.Saleae then
      if streamid ≠ s.stream_match then POut.noneF
      else
        POut.listF (databytes.filterMap fun p =>
          match p.2.1, p.2.2 with
          | some bs, some be =>
            some { tag := "data", start_time := some bs, end_time := some be,
                   dataBytes := some [p.1] }
          | _, _ => none)
    else
      let data_str := "Stream" ++ toString streamid ++ ":" ++
        String.join (databytes.map fun p =>
          match p.2.1, p.2.2 with
          | some _, some _ => " " ++ pyHexUpper 2 p.1
          | _, _ => "")
      POut.oneF (AnalyzerFrame "tpiu" start_time end_time data_str)
  else POut.noneF

/-- Classification string of a recognised sync pattern of the given
consumed length (`data_str` construction in `TPIUCtx.process_byte`). -/
def syncClass (synclen : Nat) : String :=
  (if synclen = 2 then "Short " else if synclen = 4 then "" else "BAD ") ++ "Sync"

/-- Local state of the 15-iteration scanning loop inside
`TPIUCtx.process_byte`. -/
structure TLoop where
  ctx : TPIUCtx
  databytes : List PB
  stream_start_time : Option Nat
  pending_nextstream : Option Nat
  do_sync : Bool
  frames : List Frame
deriving Repr

/-- One iteration of the `for idx in range(15)` loop of
`TPIUCtx.process_byte`; `Sum.inr` models the `break` on sync
termination. -/
def scanStep (frame : Frame) (lsbits : Nat) (pkt : List PB) (idx : Nat)
    (st : TLoop) : TLoop ⊕ TLoop :=
  let p := pkt.getD idx PBdefault
  let pb := p.1
  if idx % 2 = 1 then
    if st.do_sync then
      if pb = 0x7F then
        let synclen := idx + 1
        let sync_end_time := useStart p.2.2 frame.end_time
        let newpkt := pkt.drop synclen
        Sum.inr
          { st with
              do_sync := false,
              ctx := { st.ctx with
                  packet := newpkt, bidx := 16 - synclen,
                  start_time := (newpkt.getD 0 PBdefault).2.1 },
              frames := st.frames ++
                [AnalyzerFrame "tpiu" st.stream_start_time sync_end_time
                  (syncClass synclen)] }
      else if pb ≠ 0xFF then
        Sum.inl { st with frames := st.frames ++
          [AnalyzerFrame "err" st.stream_start_time frame.end_time "Expected FF"] }
      else Sum.inl st
    else
      let databytes := st.databytes ++ [p]
      match st.pending_nextstream with
      | some pns =>
        let out := st.ctx.dump_stream st.stream_start_time frame.end_time
          st.ctx.stream_active databytes
        Sum.inl
          { st with
              databytes := [],
              ctx := { st.ctx with stream_active := pns },
              pending_nextstream := none,
              frames := st.frames ++ out.frames }
      | none => Sum.inl { st with databytes := databytes }
  else
    if pb % 2 = 1 then
      if pb = 0xFF then Sum.inl { st with do_sync := true }
      else
        let nextstream := pb >>> 1
        if nextstream ≠ st.ctx.stream_active then
          let sst := p.2.1
          if (lsbits >>> (idx >>> 1)) % 2 = 1 then
            Sum.inl
              { st with
                  stream_start_time := sst,
                  pending_nextstream := some nextstream }
          else
            let out := st.ctx.dump_stream sst frame.end_time
              st.ctx.stream_active st.databytes
            Sum.inl
              { st with
                  stream_start_time := sst,
                  ctx := { st.ctx with stream_active := nextstream },
                  frames := st.frames ++ out.frames }
        else Sum.inl st
    else
      if st.do_sync then
        Sum.inl { st with frames := st.frames ++
          [AnalyzerFrame "err" st.stream_start_time frame.end_time
            "Expected LongSync FF"] }
      else
        let fb := pb ||| ((lsbits >>> (idx >>> 1)) % 2)
        Sum.inl { st with databytes := st.databytes ++ [(fb, p.2.1, p.2.2)] }

/-- Run the scanning loop from `idx` with `rem` iterations left. -/
def scanAux (frame : Frame) (lsbits : Nat) (pkt : List PB) :
    Nat → Nat → TLoop → TLoop
  | 0, _, st => st
  | rem + 1, idx, st =>
    match scanStep frame lsbits pkt idx st with
    | Sum.inl st2 => scanAux frame lsbits pkt rem (idx + 1) st2
    | Sum.inr st2 => st2

/-- `TPIUCtx.process_byte`: buffer one byte; when the 16th byte of a frame
arrives, demultiplex the frame (with sync recovery) and emit the collected
frames. -/
def TPIUCtx.process_byte (s : TPIUCtx) (frame : Frame) (db : Nat) :
    TPIUCtx × List Frame :=
  let s := if s.bidx = 0 then { s with start_time := frame.start_time, packet := [] } else s
  let s := { s with
      packet := s.packet ++ [(db, frame.start_time, frame.end_time)],
      bidx := s.bidx + 1 }
  if s.bidx = 16 then
    let pkt := s.packet
    let lsbits := (pkt.getD 15 PBdefault).1
    let st0 : TLoop :=
      { ctx := { s with bidx := 0 }, databytes := [], stream_start_time := s.start_time,
        pending_nextstream := none, do_sync := false, frames := [] }
    let stF := scanAux frame lsbits pkt 15 0 st0
    if stF.databytes.length ≠ 0 then
      let out := stF.ctx.dump_stream stF.stream_start_time frame.end_time
        stF.ctx.stream_active stF.databytes
      (stF.ctx, stF.frames ++ out.frames)
    else
      (stF.ctx, stF.frames)
  else
    (s, [])

/-- Configuration and lazily created contexts of the `ITMDWT` analyzer. -/
structure ITMDWT where
  decode_style : String
  port : Nat
  TPIU_stream : Nat
  TPIU_offset : Nat
  ctx : Option PktCtx
  tpiu : Option TPIUCtx
deriving DecidableEq, Repr

/-- A fresh `ITMDWT` analyzer with the given settings. -/
def ITMDWT.mkNew (decode_style : String) (port TPIU_stream TPIU_offset : Nat) : ITMDWT :=
  { decode_style := decode_style, port := port, TPIU_stream := TPIU_stream,
    TPIU_offset := TPIU_offset, ctx := none, tpiu := none }

/-- The stacked-mode loop of `ITMDWT.decode`: hand each TPIU passthrough
frame to `PktCtx.run`, flattening the outputs; `none` if `run` raises. -/
def runFrames (c : PktCtx) (tframes : List Frame) : Option (PktCtx × List Frame) :=
  tframes.foldl
    (fun acc tf =>
      match acc with
      | none => none
      | some p =>
        match p.1.run tf with
        | none => none
        | some r => some (r.1, p.2 ++ r.2.frames))
    (some (c, []))

/-- `ITMDWT.decode`: lazily build the contexts, optionally unwrap a TPIU
stream, and drive the packet parser.  The outer `none` models an uncaught
exception (a missing `'data'` byte on a frame handed to `PktCtx.run`). -/
def ITMDWT.decode (a : ITMDWT) (frame : Frame) : Option (ITMDWT × POut) :=
  let a :=
    match a.ctx with
    | some _ => a
    | none =>
      let dstyle :=
        if a.decode_style = "Port" then DecodeStyle.Port
        else if a.decode_style = "Console" then DecodeStyle.Console
        else if a.decode_style = "Instrumentation" then DecodeStyle.Instrumentation
        else DecodeStyle.All
      { a with ctx := some (PktCtx.init frame.start_time dstyle a.port) }
  match a.ctx with
  | none => none
  | some c =>
    if a.TPIU_stream ≠ 0 then
      let tp :=
        match a.tpiu with
        | none => TPIUCtx.init DecodeStyleTPIU.Saleae a.TPIU_stream a.TPIU_offset
        | some t => t
      match frame.dataBytes with
      | some (db :: _) =>
        let r := tp.process_byte frame db
        match runFrames c r.2 with
        | none => none
        | some cr => some ({ a with ctx := some cr.1, tpiu := some r.1 }, POut.listF cr.2)
      | some [] => none
      | none => none
    else
      match c.run frame with
      | none => none
      | some r => some ({ a with ctx := some r.1 }, r.2)

/-- Drive the `ITMDWT` analyzer over a list of events, collecting all
emitted frames; `none` if any step raises. -/
def ITMDWT.decodeAll (a : ITMDWT) (evs : List Frame) : Option (ITMDWT × List Frame) :=
  evs.foldl
    (fun acc ev =>
      match acc with
      | none => none
      | some p =>
        match p.1.decode ev with
        | none => none
        | some r => some (r.1, p.2 ++ r.2.frames))
    (some (a, []))


/-! ## Claim theorems -/

/-- Input events of claim C1 as stated: `0x18, 0xC1, 0xDE, 0xAD, 0xBE, 0xEF`. -/
def c1Events : List Frame := evList [0x18, 0xC1, 0xDE, 0xAD, 0xBE, 0xEF]

/-- Parser output of claim C1's input on a fresh all-ports parser. -/
def c1Run : Option (PktCtx × List Frame) :=
  (PktCtx.init (some 0) DecodeStyle.All 0).runBytes c1Events

/-- C1 (counterexample): with decode style `All` and a fresh parser,
feeding `0x18, 0xC1, 0xDE, 0xAD, 0xBE, 0xEF` does NOT produce a single
`itm` frame `"Port#56 Size#4 Data#EFBEADDE"`: the header `0xC1` has
SS = 0b01, a one-byte write, so the code emits `"Port#56 Size#1 Data#DE"`
and then misparses the remaining bytes. -/
theorem C1_counterexample :
    ¬ ((c1Run.map fun p => p.2.map fun f => (f.tag, f.val))
        = some [("itm", some "Port#56 Size#4 Data#EFBEADDE")]) := by
  decide

/-- C1 (amended): with the 4-byte source header `0xC3` (port 24, SS = 0b11)
in place of `0xC1`, the sequence `0x18, 0xC3, 0xDE, 0xAD, 0xBE, 0xEF`
produces exactly one `itm` frame with value `"Port#56 Size#4 Data#EFBEADDE"`
(the `0x18` header sets stimulus page 1; effective address 56). -/
theorem C1_amended_itm_page_write :
    (((PktCtx.init (some 0) DecodeStyle.All 0).runBytes
        (evList [0x18, 0xC3, 0xDE, 0xAD, 0xBE, 0xEF])).map
      fun p => p.2.map fun f => (f.tag, f.val))
      = some [("itm", some "Port#56 Size#4 Data#EFBEADDE")] := by
  decide

/-- An input event whose optional error field is set, carrying byte `0x50`. -/
def evWithError : Frame :=
  { tag := "data", start_time := some 0, end_time := some 1,
    dataBytes := some [0x50], dataError := true }

/-- C2 (code divergence): the core never consults the input event's error
field (the check is left as an `IMPLEMENT:` comment in `ITMDWT.decode`), so
an event with the error field set is decoded normally: byte `0x50` on a
fresh all-ports analyzer emits a `console` frame `"Local TS 5 synchronous"`
instead of being skipped. -/
theorem C2_error_byte_is_decoded :
    evWithError.dataError = true ∧
    (((ITMDWT.mkNew "All" 0 0 0).decode evWithError).map
        fun r => r.2.frames.map fun f => (f.tag, f.val))
      = some [("console", some "Local TS 5 synchronous")] := by
  constructor
  · rfl
  · decide

/-- C6: from HDR with decode style `All`, the bytes `0x0E, 0x0F, 0x10`
produce exactly one `dwt` frame with value `" EXC 15 ENTERED"` (DWT
exception packet, pcode 1, size 2, pdata `0x100F`, exception number 15,
function code 1 = ENTERED). -/
theorem C6_dwt_exception_entered :
    (((PktCtx.init (some 0) DecodeStyle.All 0).runBytes
        (evList [0x0E, 0x0F, 0x10])).map
      fun p => p.2.map fun f => (f.tag, f.val))
      = some [("dwt", some " EXC 15 ENTERED")] := by
  decide

/-- The 16-byte stacked-mode input of claim C8: a short sync
(`0xFF, 0x7F`) followed by frame filler. -/
def c8Events : List Frame := evList ([0xFF, 0x7F] ++ List.replicate 14 0)

/-- C8 (code divergence): in stacked mode (`TPIU_stream = 1`), the TPIU
passthrough places a `tpiu` sync frame (which has only a `'val'` entry, no
`'data'` bytes) in the list handed to `PktCtx.run`, whose access
`frame.data['data'][0]` then raises: the pipeline aborts (modelled as
`none`) on the 16th byte of a frame containing a short sync. -/
theorem C8_sync_frame_crashes_stacked_decode :
    (ITMDWT.mkNew "All" 0 1 0).decodeAll c8Events = none := by
  decide

/-- C10: every LF (`0x0A`) or NUL (`0x00`) payload byte emits exactly one
`console` frame carrying the accumulated text (the empty string when
nothing has accumulated), and resets the accumulator. -/
theorem C10_terminator_flushes_console (c : ConsoleCtx) (frame : Frame) (cc : Nat)
    (h : cc = 0x0A ∨ cc = 0x00) :
    (c.cdata frame cc).2
        = some (AnalyzerFrame "console" c.start_time frame.end_time c.ctext) ∧
      (c.cdata frame cc).1.ctext = "" := by
  unfold ConsoleCtx.cdata
  rw [if_pos h]
  exact ⟨rfl, rfl⟩

/-- C10 witness: a NUL byte on an empty accumulator emits a `console`
frame whose value is the empty string. -/
theorem C10_witness :
    ((0x0A : Nat) = 0x0A ∨ (0x0A : Nat) = 0x00) ∧
      ((ConsoleCtx.mk (some 3) "").cdata (mkEvent 5 6 0x0A) 0x0A).2
          = some (AnalyzerFrame "console" (some 3) (some 6) "") ∧
        ((ConsoleCtx.mk (some 3) "").cdata (mkEvent 5 6 0x0A) 0x0A).1.ctext = "" :=
  ⟨Or.inl rfl, C10_terminator_flushes_console (ConsoleCtx.mk (some 3) "")
    (mkEvent 5 6 0x0A) 0x0A (Or.inl rfl)⟩

/-- C4: a tail packet (size 1) whose sequence number differs from the open
record's expected sequence yields exactly one `err` frame with the message
`Seq# mismatch: saw XX expected YY`, and the record closes with the
sequence reset to the idle sentinel 256. -/
theorem C4_seq_mismatch (inst : Instrumentation) (st en : Option Nat) (pdata : Nat)
    (hopen : inst.sequence ≠ 256) (hmm : pdata % 256 ≠ inst.sequence) :
    (inst.packet st en 1 pdata).2
        = some (AnalyzerFrame "err" (useStart inst.start_time st) en
            ("Seq# mismatch: saw " ++ pyHexUpper 2 (pdata % 256)
              ++ " expected " ++ pyHexUpper 2 inst.sequence)) ∧
      (inst.packet st en 1 pdata).1.sequence = 256 := by
  have h2 : inst.sequence ≠ pdata % 256 := Ne.symm hmm
  simp [Instrumentation.packet, h2]

/-- C4 witness: an open record expecting sequence `0x05` closed by a tail
carrying `0x07` emits the mismatch error and resets to idle. -/
theorem C4_witness :
    ({ Instrumentation.init with sequence := 5 } : Instrumentation).sequence ≠ 256 ∧
      (7 : Nat) % 256 ≠ ({ Instrumentation.init with sequence := 5 } : Instrumentation).sequence ∧
      (({ Instrumentation.init with sequence := 5 } : Instrumentation).packet
          (some 1) (some 2) 1 7).2
        = some (AnalyzerFrame "err" (some 1) (some 2)
            ("Seq# mismatch: saw 07 expected 05")) ∧
      (({ Instrumentation.init with sequence := 5 } : Instrumentation).packet
          (some 1) (some 2) 1 7).1.sequence = 256 := by
  refine ⟨by decide, by decide, ?_⟩
  exact C4_seq_mismatch { Instrumentation.init with sequence := 5 }
    (some 1) (some 2) 7 (by decide) (by decide)

/-- The reassembler's field loop, which indexes `dvector` over
`List.range num_words`, renders exactly the list's elements in order when
`num_words` equals the list length. -/
theorem range_map_hex (l : List Nat) :
    (List.range l.length).map (fun i => " " ++ pyHexUpper 8 (l.getD i 0))
      = l.map fun v => " " ++ pyHexUpper 8 v := by
  induction l with
  | nil => rfl
  | cons a t ih =>
    rw [List.length_cons, List.range_succ_eq_map, List.map_cons, List.map_map,
      List.map_cons]
    exact congrArg (List.cons (" " ++ pyHexUpper 8 a)) ih

/-- Feeding only 4-byte data packets appends the payloads to `dvector`,
bumps `num_words`, emits nothing, and leaves the sequence bookkeeping and
`start_time` untouched. -/
theorem feed_data_fields (vs : List Nat) (inst : Instrumentation) (acc : List Frame) :
    ((vs.map fun v => ((none : Option Nat), (none : Option Nat), 4, v)).foldl
        instStep (inst, acc)).1.sequence = inst.sequence ∧
      ((vs.map fun v => ((none : Option Nat), (none : Option Nat), 4, v)).foldl
        instStep (inst, acc)).1.lastseq = inst.lastseq ∧
      ((vs.map fun v => ((none : Option Nat), (none : Option Nat), 4, v)).foldl
        instStep (inst, acc)).1.rec_words = inst.rec_words ∧
      ((vs.map fun v => ((none : Option Nat), (none : Option Nat), 4, v)).foldl
        instStep (inst, acc)).1.num_words = inst.num_words + vs.length ∧
      ((vs.map fun v => ((none : Option Nat), (none : Option Nat), 4, v)).foldl
        instStep (inst, acc)).1.dvector = inst.dvector ++ vs ∧
      ((vs.map fun v => ((none : Option Nat), (none : Option Nat), 4, v)).foldl
        instStep (inst, acc)).1.start_time = inst.start_time ∧
      ((vs.map fun v => ((none : Option Nat), (none : Option Nat), 4, v)).foldl
        instStep (inst, acc)).2 = acc := by
  induction vs generalizing inst acc with
  | nil => simp
  | cons v t ih =>
    have hstep : instStep (inst, acc) ((none : Option Nat), (none : Option Nat), 4, v)
        = ({ inst with
              dvector := inst.dvector ++ [v], num_words := inst.num_words + 1,
              end_time := none }, acc) := by
      simp [instStep, Instrumentation.packet]
    rw [List.map_cons, List.foldl_cons, hstep]
    obtain ⟨h1, h2, h3, h4, h5, h6, h7⟩ := ih
      { inst with
          dvector := inst.dvector ++ [v], num_words := inst.num_words + 1,
          end_time := none } acc
    refine ⟨by rw [h1], by rw [h2], by rw [h3], ?_, ?_, by rw [h6], h7⟩
    · rw [h4]; simp [Nat.add_assoc, Nat.add_comm 1 t.length]
    · rw [h5]; simp

/-- A well-formed record fed to an idle reassembler — a head declaring `N`
fields and sequence `SS`, exactly `N` 4-byte data words, then a matching
tail — yields exactly one `console` frame: the (possible) missed-packets
prefix, `Seq#SS`, and the field values as 8-hex-digit words in arrival
order. -/
theorem feed_record_spec (inst : Instrumentation) (SS N : Nat) (vals : List Nat)
    (t0 t1 t2 t3 : Option Nat)
    (hidle : inst.sequence = 256) (hSS : SS < 256) (hN : N < 256)
    (hlen : vals.length = N) :
    (inst.feed ((t0, t1, 2, SS + 256 * N)
        :: ((vals.map fun v => ((none : Option Nat), (none : Option Nat), 4, v))
        ++ [(t2, t3, 1, SS)]))).2
      = [AnalyzerFrame "console" t0 t3
          ((if SS ≠ (inst.lastseq + 1) % 256 then "[Missed packets] " else "")
            ++ ("Seq#" ++ pyHexUpper 2 SS)
            ++ String.join (vals.map fun v => " " ++ pyHexUpper 8 v))] := by
  have hmod : (SS + 256 * N) % 256 = SS := by
    rw [Nat.add_mul_mod_self_left, Nat.mod_eq_of_lt hSS]
  have hshift : ((SS + 256 * N) >>> 8) % 256 = N := by
    rw [Nat.shiftRight_eq_div_pow]
    norm_num
    rw [Nat.add_mul_div_left _ _ (by norm_num : (0:Nat) < 256)]
    rw [Nat.div_eq_of_lt hSS, Nat.zero_add, Nat.mod_eq_of_lt hN]
  have hhead : instStep (inst, ([] : List Frame)) (t0, t1, 2, SS + 256 * N)
      = ({ inst with
            num_words := 0, sequence := SS, rec_words := N,
            start_time := t0, end_time := t1, dvector := [] }, []) := by
    simp [instStep, Instrumentation.packet, hidle, hmod, hshift]
  rw [Instrumentation.feed, List.foldl_cons, hhead, List.foldl_append,
    List.foldl_cons, List.foldl_nil]
  obtain ⟨h1, h2, h3, h4, h5, h6, h7⟩ := feed_data_fields vals
    { inst with
        num_words := 0, sequence := SS, rec_words := N,
        start_time := t0, end_time := t1, dvector := [] } []
  have e1 : SS % 256 = SS := Nat.mod_eq_of_lt hSS
  have hfin : (List.range N).map (fun idx => " " ++ pyHexUpper 8 (vals[idx]?.getD 0))
      = vals.map fun v => " " ++ pyHexUpper 8 v := by
    have h := range_map_hex vals
    simp only [List.getD_eq_getElem?_getD] at h
    rw [hlen] at h
    exact h
  simp only [instStep, Instrumentation.packet, e1, h1, h2, h3, h4, h5, h6, h7]
  norm_num [hlen, hfin]

/-- C3: from an idle reassembler, a well-formed record — one head (size 2)
declaring `N` fields and sequence `SS`, exactly `N` data writes (size 4),
then one tail (size 1) carrying `SS` — yields exactly one `console` frame
whose value lists the `N` 32-bit field values as 8-hex-digit words in
arrival order (after the `Seq#SS` header and the gap annotation the code
may prepend). -/
theorem C3_wellformed_record (inst : Instrumentation) (SS N : Nat) (vals : List Nat)
    (t0 t1 t2 t3 : Option Nat)
    (hidle : inst.sequence = 256) (hSS : SS < 256) (hN : N < 256)
    (hlen : vals.length = N) :
    (inst.feed ((t0, t1, 2, SS + 256 * N)
        :: ((vals.map fun v => ((none : Option Nat), (none : Option Nat), 4, v))
        ++ [(t2, t3, 1, SS)]))).2
      = [AnalyzerFrame "console" t0 t3
          ((if SS ≠ (inst.lastseq + 1) % 256 then "[Missed packets] " else "")
            ++ ("Seq#" ++ pyHexUpper 2 SS)
            ++ String.join (vals.map fun v => " " ++ pyHexUpper 8 v))] :=
  feed_record_spec inst SS N vals t0 t1 t2 t3 hidle hSS hN hlen

/-- C3 witness: sequence 2, one field `0xDEADBEEF`, on a fresh reassembler. -/
theorem C3_witness :
    Instrumentation.init.sequence = 256 ∧ (2 : Nat) < 256 ∧ (1 : Nat) < 256 ∧
      ([0xDEADBEEF] : List Nat).length = 1 ∧
      (Instrumentation.init.feed [(some 0, some 1, 2, 2 + 256 * 1),
          ((none : Option Nat), (none : Option Nat), 4, 0xDEADBEEF),
          (some 6, some 7, 1, 2)]).2
        = [AnalyzerFrame "console" (some 0) (some 7)
            "[Missed packets] Seq#02 DEADBEEF"] :=
  ⟨rfl, by decide, by decide, rfl,
    C3_wellformed_record Instrumentation.init 2 1 [0xDEADBEEF]
      (some 0) (some 1) (some 6) (some 7) rfl (by decide) (by decide) rfl⟩

/-- C9: on a freshly constructed reassembler (`lastseq = 0`, no record
ever completed), the first well-formed record whose matching sequence
number is not 1 is reported with the `[Missed packets] ` prefix even
though no earlier record was ever received. -/
theorem C9_first_record_missed_prefix (SS N : Nat) (vals : List Nat)
    (t0 t1 t2 t3 : Option Nat) (hSS : SS < 256) (hN : N < 256)
    (hlen : vals.length = N) (hne1 : SS ≠ 1) :
    (Instrumentation.init.feed ((t0, t1, 2, SS + 256 * N)
        :: ((vals.map fun v => ((none : Option Nat), (none : Option Nat), 4, v))
        ++ [(t2, t3, 1, SS)]))).2
      = [AnalyzerFrame "console" t0 t3
          ("[Missed packets] " ++ ("Seq#" ++ pyHexUpper 2 SS)
            ++ String.join (vals.map fun v => " " ++ pyHexUpper 8 v))] := by
  have h := feed_record_spec Instrumentation.init SS N vals t0 t1 t2 t3 rfl hSS hN hlen
  rw [h]
  norm_num [Instrumentation.init, hne1]

/-- C9 witness: first record with sequence 3 on a fresh reassembler is
annotated `[Missed packets] `. -/
theorem C9_witness :
    (3 : Nat) < 256 ∧ (1 : Nat) < 256 ∧ ([0xCAFEF00D] : List Nat).length = 1 ∧
      (3 : Nat) ≠ 1 ∧
      (Instrumentation.init.feed [(some 2, some 3, 2, 3 + 256 * 1),
          ((none : Option Nat), (none : Option Nat), 4, 0xCAFEF00D),
          (some 8, some 9, 1, 3)]).2
        = [AnalyzerFrame "console" (some 2) (some 9)
            "[Missed packets] Seq#03 CAFEF00D"] :=
  ⟨by decide, by decide, rfl, by decide,
    C9_first_record_missed_prefix 3 1 [0xCAFEF00D]
      (some 2) (some 3) (some 8) (some 9) (by decide) (by decide) rfl (by decide)⟩

/-- In the header state, any step either keeps the FSM unchanged or emits
nothing. -/
theorem hdr_fsm_or_none (s : PktCtx) (fr : Frame) (db : Nat) :
    (s.hdr fr db).1.fsm = s.fsm ∨ (s.hdr fr db).2 = POut.noneF := by
  simp only [PktCtx.hdr]
  split_ifs <;> first | (left; rfl) | (right; rfl)

/-- Any `itm1` step either lands in HDR or emits nothing. -/
theorem itm1_fsm_or_none (s : PktCtx) (fr : Frame) (db : Nat) :
    (s.itm1 fr db).1.fsm = TPIU_FSM.HDR ∨ (s.itm1 fr db).2 = POut.noneF := by
  simp only [PktCtx.itm1]
  split_ifs <;> first | (left; rfl) | (right; rfl)

/-- Any `itm2` step either lands in HDR or emits nothing. -/
theorem itm2_fsm_or_none (s : PktCtx) (fr : Frame) (db : Nat) :
    (s.itm2 fr db).1.fsm = TPIU_FSM.HDR ∨ (s.itm2 fr db).2 = POut.noneF := by
  simp only [PktCtx.itm2]
  split_ifs <;> first | (left; rfl) | (right; rfl)

/-- Any `itm3` step either lands in HDR or emits nothing. -/
theorem itm3_fsm_or_none (s : PktCtx) (fr : Frame) (db : Nat) :
    (s.itm3 fr db).1.fsm = TPIU_FSM.HDR ∨ (s.itm3 fr db).2 = POut.noneF := by
  simp only [PktCtx.itm3]
  split_ifs <;> first | (left; rfl) | (right; rfl)

/-- Any `itm4` step lands in HDR. -/
theorem itm4_fsm_or_none (s : PktCtx) (fr : Frame) (db : Nat) :
    (s.itm4 fr db).1.fsm = TPIU_FSM.HDR ∨ (s.itm4 fr db).2 = POut.noneF := by
  simp only [PktCtx.itm4]
  split_ifs <;> (left; rfl)

/-- Any `dwt1` step either lands in HDR or emits nothing. -/
theorem dwt1_fsm_or_none (s : PktCtx) (fr : Frame) (db : Nat) :
    (s.dwt1 fr db).1.fsm = TPIU_FSM.HDR ∨ (s.dwt1 fr db).2 = POut.noneF := by
  simp only [PktCtx.dwt1]
  split_ifs <;> first | (left; rfl) | (right; rfl)

/-- Any `dwt2` step either lands in HDR or emits nothing. -/
theorem dwt2_fsm_or_none (s : PktCtx) (fr : Frame) (db : Nat) :
    (s.dwt2 fr db).1.fsm = TPIU_FSM.HDR ∨ (s.dwt2 fr db).2 = POut.noneF := by
  simp only [PktCtx.dwt2]
  split_ifs <;> first | (left; rfl) | (right; rfl)

/-- Any `dwt3` step either lands in HDR or emits nothing. -/
theorem dwt3_fsm_or_none (s : PktCtx) (fr : Frame) (db : Nat) :
    (s.dwt3 fr db).1.fsm = TPIU_FSM.HDR ∨ (s.dwt3 fr db).2 = POut.noneF := by
  simp only [PktCtx.dwt3]
  split_ifs <;> first | (left; rfl) | (right; rfl)

/-- Any `dwt4` step lands in HDR. -/
theorem dwt4_fsm_or_none (s : PktCtx) (fr : Frame) (db : Nat) :
    (s.dwt4 fr db).1.fsm = TPIU_FSM.HDR ∨ (s.dwt4 fr db).2 = POut.noneF := by
  simp only [PktCtx.dwt4]
  split_ifs <;> (left; rfl)

/-- Any `ext` step either lands in HDR or emits nothing. -/
theorem ext_fsm_or_none (s : PktCtx) (fr : Frame) (db : Nat) :
    (s.ext fr db).1.fsm = TPIU_FSM.HDR ∨ (s.ext fr db).2 = POut.noneF := by
  simp only [PktCtx.ext]
  split_ifs <;> first | (left; rfl) | (right; rfl)

/-- Any `lts` step either lands in HDR or emits nothing. -/
theorem lts_fsm_or_none (s : PktCtx) (fr : Frame) (db : Nat) :
    (s.lts fr db).1.fsm = TPIU_FSM.HDR ∨ (s.lts fr db).2 = POut.noneF := by
  simp only [PktCtx.lts]
  split_ifs <;> first | (left; rfl) | (right; rfl)

/-- Any `gts1` step either lands in HDR or emits nothing. -/
theorem gts1_fsm_or_none (s : PktCtx) (fr : Frame) (db : Nat) :
    (s.gts1 fr db).1.fsm = TPIU_FSM.HDR ∨ (s.gts1 fr db).2 = POut.noneF := by
  simp only [PktCtx.gts1]
  split_ifs <;> first | (left; rfl) | (right; rfl)

/-- Any `gts2` step either lands in HDR or emits nothing. -/
theorem gts2_fsm_or_none (s : PktCtx) (fr : Frame) (db : Nat) :
    (s.gts2 fr db).1.fsm = TPIU_FSM.HDR ∨ (s.gts2 fr db).2 = POut.noneF := by
  simp only [PktCtx.gts2]
  split_ifs <;> first | (left; rfl) | (right; rfl)

/-- Whenever a dispatch step emits any frame at all, the parser's FSM ends
in HDR. -/
theorem dispatch_frames_ne_nil (s : PktCtx) (fr : Frame) (db : Nat)
    (h : (s.dispatch fr db).2.frames ≠ []) :
    (s.dispatch fr db).1.fsm = TPIU_FSM.HDR := by
  have key : (s.dispatch fr db).1.fsm = TPIU_FSM.HDR
      ∨ (s.dispatch fr db).2 = POut.noneF := by
    cases hfsm : s.fsm <;> simp only [PktCtx.dispatch, hfsm]
    case HDR =>
      rcases hdr_fsm_or_none s fr db with h1 | h2
      · exact Or.inl (h1.trans hfsm)
      · exact Or.inr h2
    case ITM1 => exact itm1_fsm_or_none s fr db
    case ITM2 => exact itm2_fsm_or_none s fr db
    case ITM3 => exact itm3_fsm_or_none s fr db
    case ITM4 => exact itm4_fsm_or_none s fr db
    case DWT1 => exact dwt1_fsm_or_none s fr db
    case DWT2 => exact dwt2_fsm_or_none s fr db
    case DWT3 => exact dwt3_fsm_or_none s fr db
    case DWT4 => exact dwt4_fsm_or_none s fr db
    case EXT => exact ext_fsm_or_none s fr db
    case LTS => exact lts_fsm_or_none s fr db
    case GTS1 => exact gts1_fsm_or_none s fr db
    case GTS2 => exact gts2_fsm_or_none s fr db
  rcases key with h1 | h2
  · exact h1
  · rw [h2] at h
    exact absurd rfl h

/-- C5: immediately after `PktCtx.run` emits any `err`-tagged frame
(unrecognised global-timestamp header, unterminated LTS/GTS1/GTS2
continuation, or a reassembler error), the parser's `fsm` field is HDR. -/
theorem C5_err_implies_hdr (s : PktCtx) (fr : Frame) (r : PktCtx × POut) (f : Frame)
    (hrun : s.run fr = some r) (hmem : f ∈ r.2.frames) (htag : f.tag = "err") :
    r.1.fsm = TPIU_FSM.HDR := by
  cases hdb : fr.dataBytes with
  | none =>
    simp only [PktCtx.run, hdb] at hrun
    exact Option.noConfusion hrun
  | some l =>
    cases l with
    | nil =>
      simp only [PktCtx.run, hdb] at hrun
      exact Option.noConfusion hrun
    | cons db rest =>
      simp only [PktCtx.run, hdb, Option.some.injEq] at hrun
      subst hrun
      exact dispatch_frames_ne_nil s fr db (List.ne_nil_of_mem hmem)

/-- C5 witness: the unrecognised global-timestamp header `0x04` emits an
`err` frame and leaves the parser in HDR. -/
theorem C5_witness :
    ((PktCtx.init (some 0) DecodeStyle.All 0).run (mkEvent 0 1 4)).isSome = true ∧
      (∀ r, (PktCtx.init (some 0) DecodeStyle.All 0).run (mkEvent 0 1 4) = some r →
        AnalyzerFrame "err" (some 0) (some 1) "Global TimeStamp Decode 04" ∈ r.2.frames ∧
          r.1.fsm = TPIU_FSM.HDR) := by
  refine ⟨by decide, fun r hr => ⟨?_, ?_⟩⟩
  · have : r = ((PktCtx.init (some 0) DecodeStyle.All 0).dispatch (mkEvent 0 1 4) 4) := by
      simp only [PktCtx.run, mkEvent, Option.some.injEq] at hr
      exact hr.symm
    rw [this]
    decide
  · refine C5_err_implies_hdr (PktCtx.init (some 0) DecodeStyle.All 0)
      (mkEvent 0 1 4) r (AnalyzerFrame "err" (some 0) (some 1) "Global TimeStamp Decode 04")
      hr ?_ rfl
    have : r = ((PktCtx.init (some 0) DecodeStyle.All 0).dispatch (mkEvent 0 1 4) 4) := by
      simp only [PktCtx.run, mkEvent, Option.some.injEq] at hr
      exact hr.symm
    rw [this]
    decide


/-- An even `0xFF` byte (re)enters sync-scan and changes nothing else. -/
theorem scanStep_sync_even (frame : Frame) (lsbits : Nat) (pkt : List PB) (j : Nat)
    (st : TLoop) (hev : j % 2 = 0) (hFF : byteAt pkt j = 0xFF) :
    scanStep frame lsbits pkt j st = Sum.inl { st with do_sync := true } := by
  simp only [byteAt] at hFF
  simp only [scanStep, hFF]
  rw [if_neg (by omega : ¬ j % 2 = 1)]
  norm_num

/-- An odd `0xFF` byte during sync-scan leaves the loop state unchanged. -/
theorem scanStep_sync_odd (frame : Frame) (lsbits : Nat) (pkt : List PB) (j : Nat)
    (st : TLoop) (hodd : j % 2 = 1) (hds : st.do_sync = true)
    (hFF : byteAt pkt j = 0xFF) :
    scanStep frame lsbits pkt j st = Sum.inl st := by
  simp only [byteAt] at hFF
  simp only [scanStep, hFF]
  rw [if_pos hodd, if_pos hds]
  norm_num

/-- An odd `0x7F` byte during sync-scan terminates the scan: the consumed
bytes are dropped from the packet buffer, `bidx` is re-timed to 16 minus
the sync length, and the classified sync frame is appended. -/
theorem scanStep_break (frame : Frame) (lsbits : Nat) (pkt : List PB) (i : Nat)
    (st : TLoop) (hodd : i % 2 = 1) (hds : st.do_sync = true)
    (h7f : byteAt pkt i = 0x7F) :
    scanStep frame lsbits pkt i st = Sum.inr
      { st with
          do_sync := false,
          ctx := { st.ctx with
              packet := pkt.drop (i + 1), bidx := 16 - (i + 1),
              start_time := ((pkt.drop (i + 1)).getD 0 PBdefault).2.1 },
          frames := st.frames ++
            [AnalyzerFrame "tpiu" st.stream_start_time
              (useStart (pkt.getD i PBdefault).2.2 frame.end_time)
              (syncClass (i + 1))] } := by
  simp only [byteAt] at h7f
  simp only [scanStep, h7f]
  rw [if_pos hodd, if_pos hds]
  norm_num

/-- Before sync is entered (and while the even bytes seen are not `0xFF`),
every loop step continues and preserves `do_sync`, the packet buffer,
`bidx` and the frame start time. -/
theorem scanStep_presync (frame : Frame) (lsbits : Nat) (pkt : List PB) (j : Nat)
    (st : TLoop) (hds : st.do_sync = false)
    (hev : j % 2 = 0 → byteAt pkt j ≠ 0xFF) :
    ∃ st2, scanStep frame lsbits pkt j st = Sum.inl st2 ∧ st2.do_sync = false ∧
      st2.ctx.packet = st.ctx.packet ∧ st2.ctx.bidx = st.ctx.bidx ∧
      st2.ctx.start_time = st.ctx.start_time := by
  simp only [byteAt] at hev
  simp only [scanStep]
  by_cases hodd : j % 2 = 1
  · rw [if_pos hodd, if_neg (by simp [hds])]
    cases hp : st.pending_nextstream with
    | some pns => exact ⟨_, rfl, hds, rfl, rfl, rfl⟩
    | none => exact ⟨_, rfl, hds, rfl, rfl, rfl⟩
  · rw [if_neg hodd]
    by_cases hpb : (pkt.getD j PBdefault).1 % 2 = 1
    · rw [if_pos hpb]
      rw [if_neg (hev (by omega))]
      by_cases hns : (pkt.getD j PBdefault).1 >>> 1 ≠ st.ctx.stream_active
      · rw [if_pos hns]
        by_cases hl : (lsbits >>> (j >>> 1)) % 2 = 1
        · rw [if_pos hl]
          exact ⟨_, rfl, hds, rfl, rfl, rfl⟩
        · rw [if_neg hl]
          exact ⟨_, rfl, hds, rfl, rfl, rfl⟩
      · rw [if_neg hns]
        exact ⟨_, rfl, hds, rfl, rfl, rfl⟩
    · rw [if_neg hpb, if_neg (by simp [hds])]
      exact ⟨_, rfl, hds, rfl, rfl, rfl⟩

/-- Scanning from `j` up to the even `0xFF` at index `e` (no earlier even
`0xFF`) reaches index `e + 1` with `do_sync` set and the buffer state
intact. -/
theorem scan_reach_sync (frame : Frame) (lsbits : Nat) (pkt : List PB) (e : Nat)
    (he : e % 2 = 0) (he15 : e < 15) (hFFe : byteAt pkt e = 0xFF) :
    ∀ k j st, j + k = e → st.do_sync = false →
      (∀ j2, j ≤ j2 → j2 < e → j2 % 2 = 0 → byteAt pkt j2 ≠ 0xFF) →
      ∃ st2, scanAux frame lsbits pkt (15 - j) j st
          = scanAux frame lsbits pkt (15 - (e + 1)) (e + 1) st2
        ∧ st2.do_sync = true ∧ st2.ctx.packet = st.ctx.packet
        ∧ st2.ctx.bidx = st.ctx.bidx
        ∧ st2.ctx.start_time = st.ctx.start_time := by
  intro k
  induction k with
  | zero =>
    intro j st hj hds _hpre
    have hje : j = e := by omega
    subst hje
    have h15 : 15 - j = (14 - j) + 1 := by omega
    rw [h15]
    simp only [scanAux]
    rw [scanStep_sync_even frame lsbits pkt j st he hFFe]
    have h14 : 14 - j = 15 - (j + 1) := by omega
    rw [h14]
    exact ⟨_, rfl, rfl, rfl, rfl, rfl⟩
  | succ k ih =>
    intro j st hj hds hpre
    have hj15 : j < 15 := by omega
    have h15 : 15 - j = (14 - j) + 1 := by omega
    rw [h15]
    simp only [scanAux]
    obtain ⟨st2, hstep, hds2, hpk2, hbx2, hst2⟩ :=
      scanStep_presync frame lsbits pkt j st hds (fun h2 => hpre j le_rfl (by omega) h2)
    rw [hstep]
    have h14 : 14 - j = 15 - (j + 1) := by omega
    rw [h14]
    obtain ⟨st3, heq, hd3, hp3, hb3, hs3⟩ := ih (j + 1) st2 (by omega) hds2
      (fun j2 ha hb hc => hpre j2 (by omega) hb hc)
    exact ⟨st3, heq, hd3, hp3.trans hpk2, hb3.trans hbx2, hs3.trans hst2⟩

/-- Setting `do_sync` when it is already set changes nothing. -/
theorem tloop_eta (st : TLoop) (h : st.do_sync = true) :
    ({ st with do_sync := true } : TLoop) = st := by
  cases st
  simp only at h
  rw [h]

/-- Scanning through a run of `0xFF` bytes with `do_sync` set reaches the
terminating index unchanged. -/
theorem scan_reach_break (frame : Frame) (lsbits : Nat) (pkt : List PB) (i : Nat)
    (hi : i % 2 = 1) (hi15 : i < 15) :
    ∀ k j st, j + k = i → st.do_sync = true →
      (∀ j2, j ≤ j2 → j2 < i → byteAt pkt j2 = 0xFF) →
      scanAux frame lsbits pkt (15 - j) j st = scanAux frame lsbits pkt (15 - i) i st := by
  intro k
  induction k with
  | zero =>
    intro j st hj _hds _hFF
    have : j = i := by omega
    subst this
    rfl
  | succ k ih =>
    intro j st hj hds hFF
    have hj15 : j < 15 := by omega
    have h15 : 15 - j = (14 - j) + 1 := by omega
    rw [h15]
    simp only [scanAux]
    have h14 : 14 - j = 15 - (j + 1) := by omega
    by_cases hodd : j % 2 = 1
    · rw [scanStep_sync_odd frame lsbits pkt j st hodd hds
        (hFF j le_rfl (by omega))]
      rw [h14]
      exact ih (j + 1) st (by omega) hds (fun j2 ha hb => hFF j2 (by omega) hb)
    · rw [scanStep_sync_even frame lsbits pkt j st (by omega)
        (hFF j le_rfl (by omega))]
      rw [tloop_eta st hds, h14]
      exact ih (j + 1) st (by omega) hds (fun j2 ha hb => hFF j2 (by omega) hb)

/-- C7: when a sync run begun by an even `0xFF` byte at index `e` is
terminated by a `0x7F` at odd index `i` of the 16-byte frame, the deframer
emits a `tpiu` frame classified by the consumed length `i + 1` (`Short `
for 2, plain for 4, `BAD ` otherwise), removes those `i + 1` bytes from
the packet buffer, and re-times `buffer_index` to `16 - (i + 1)`. -/
theorem C7_tpiu_sync (s : TPIUCtx) (frame : Frame) (b e i : Nat)
    (hbidx : s.bidx = 15) (hlen : s.packet.length = 15)
    (he : e % 2 = 0) (hi : i % 2 = 1) (hei : e < i) (hi15 : i < 15)
    (hpre : ∀ j, j < e → j % 2 = 0 →
      byteAt (s.packet ++ [(b, frame.start_time, frame.end_time)]) j ≠ 0xFF)
    (hFF : ∀ j, e ≤ j → j < i →
      byteAt (s.packet ++ [(b, frame.start_time, frame.end_time)]) j = 0xFF)
    (h7F : byteAt (s.packet ++ [(b, frame.start_time, frame.end_time)]) i = 0x7F) :
    ∃ pre post t1 t2,
      (s.process_byte frame b).2
          = pre ++ [AnalyzerFrame "tpiu" t1 t2 (syncClass (i + 1))] ++ post ∧
        (s.process_byte frame b).1.bidx = 16 - (i + 1) ∧
        (s.process_byte frame b).1.packet
          = (s.packet ++ [(b, frame.start_time, frame.end_time)]).drop (i + 1) := by
  simp only [TPIUCtx.process_byte, hbidx]
  norm_num [hbidx]
  obtain ⟨st2, heq, hds2, hpk2, hbx2, hst2⟩ := scan_reach_sync frame
    ((s.packet ++ [(b, frame.start_time, frame.end_time)])[15]?.getD PBdefault).1
    (s.packet ++ [(b, frame.start_time, frame.end_time)]) e he (by omega)
    (hFF e (le_refl e) hei) e 0
    { ctx := { s with
        packet := s.packet ++ [(b, frame.start_time, frame.end_time)], bidx := 0 },
      databytes := [],
      stream_start_time := s.start_time,
      pending_nextstream := none, do_sync := false, frames := [] }
    (by omega) rfl (fun j2 _ hb hc => hpre j2 hb hc)
  rw [Nat.sub_zero] at heq
  rw [heq]
  have heq2 := scan_reach_break frame
    ((s.packet ++ [(b, frame.start_time, frame.end_time)])[15]?.getD PBdefault).1
    (s.packet ++ [(b, frame.start_time, frame.end_time)]) i hi hi15
    (i - (e + 1)) (e + 1) st2 (by omega) hds2
    (fun j2 ha hb => hFF j2 (by omega) hb)
  rw [heq2]
  have h15i : 15 - i = (14 - i) + 1 := by omega
  rw [h15i]
  simp only [scanAux]
  rw [scanStep_break frame
    ((s.packet ++ [(b, frame.start_time, frame.end_time)])[15]?.getD PBdefault).1
    (s.packet ++ [(b, frame.start_time, frame.end_time)]) i st2 hi hds2 h7F]
  dsimp only
  by_cases hdb : st2.databytes = []
  · rw [if_pos hdb]
    refine ⟨⟨st2.frames, [], st2.stream_start_time,
      useStart ((s.packet ++ [(b, frame.start_time, frame.end_time)]).getD i PBdefault).2.2
        frame.end_time, ?_⟩, rfl, rfl⟩
    simp
  · rw [if_neg hdb]
    refine ⟨⟨st2.frames,
      (TPIUCtx.dump_stream
        { start_time := ((List.drop (i + 1)
              (s.packet ++ [(b, frame.start_time, frame.end_time)])).getD 0 PBdefault).2.1,
          dstyle := st2.ctx.dstyle, stream_match := st2.ctx.stream_match,
          stream_active := st2.ctx.stream_active, bidx := 16 - (i + 1),
          packet := List.drop (i + 1) (s.packet ++ [(b, frame.start_time, frame.end_time)]) }
        st2.stream_start_time frame.end_time st2.ctx.stream_active st2.databytes).frames,
      st2.stream_start_time,
      useStart ((s.packet ++ [(b, frame.start_time, frame.end_time)]).getD i PBdefault).2.2
        frame.end_time, ?_⟩, rfl, rfl⟩
    simp

/-- The 15 already-buffered bytes of the C7 witness: a 4-byte sync run
(`FF FF FF 7F`) followed by filler. -/
def c7Packet : List PB :=
  [(0xFF, some 0, some 1), (0xFF, some 1, some 2), (0xFF, some 2, some 3),
   (0x7F, some 3, some 4)] ++ List.replicate 11 PBdefault

/-- A deframer that has buffered `c7Packet` and awaits the 16th byte. -/
def c7Ctx : TPIUCtx :=
  { TPIUCtx.init DecodeStyleTPIU.All 1 0 with bidx := 15, packet := c7Packet }

/-- C7 witness: the 4-byte sync run terminated at odd index 3 is reported
as a plain `Sync`, 4 bytes are dropped, and `bidx` becomes 12. -/
theorem C7_witness :
    c7Ctx.bidx = 15 ∧ c7Ctx.packet.length = 15 ∧
      (∃ pre post t1 t2,
        (c7Ctx.process_byte (mkEvent 15 16 0) 0).2
            = pre ++ [AnalyzerFrame "tpiu" t1 t2 (syncClass (3 + 1))] ++ post ∧
          (c7Ctx.process_byte (mkEvent 15 16 0) 0).1.bidx = 16 - (3 + 1) ∧
          (c7Ctx.process_byte (mkEvent 15 16 0) 0).1.packet
            = (c7Ctx.packet
                ++ [(0, (mkEvent 15 16 0).start_time, (mkEvent 15 16 0).end_time)]).drop
                (3 + 1)) :=
  ⟨rfl, rfl,
    C7_tpiu_sync c7Ctx (mkEvent 15 16 0) 0 0 3 rfl rfl rfl rfl (by decide) (by decide)
      (fun j hj _ => absurd hj (Nat.not_lt_zero j))
      (fun j _ h3 => by interval_cases j <;> rfl)
      rfl⟩
